import Mathlib

/-!
Verification development for the geospatial preprocessing and extraction
toolkit.  The repository consists of:

* `scripts/preprocessing/r/mosaic_rasters.R` — three raster-mosaicking
  routines built on `terra::mosaic` (`mosaic_rasters_in_directory`,
  `mosaic_rasters_in_list`, `mosaic_rasters_in_batches`);
* `scripts/preprocessing/gee/functions/sentinel_indices_and_masks.js` —
  per-pixel band-math index adders (`addNDVI`, `addEVI`, `addLAI`, ...) and
  the Sentinel-2 cloud mask `maskS2clouds`;
* export helpers (`exportImageCollection`, `exportBandsByYear`) — sequential
  loops with per-image try/catch around `Export.image.toDrive`;
* a terrain-metrics script deriving slope, aspect and northness from a DEM.

The development shallowly embeds these routines.  Raster algebra is modelled
per pixel over `ℚ`; opaque platform primitives (the `sqrt` of the expression
language, `Math.PI`, `cos`, `sin`, `ee.Terrain.slope` / `ee.Terrain.aspect`,
the raster loader, the export sink) are abstracted as parameters, since the
scripts treat them as black boxes.  Side effects the claims mention are made
explicit: `stop(...)` becomes `Except.error`, `terra::writeRaster` becomes a
list of written file names, `Export.image.toDrive` a list of submitted
tasks, and a thrown-and-caught error a logged message.
-/

namespace Geo

/-! ## Raster model for mosaic_rasters.R

A raster is a partial per-pixel value map over an abstract pixel grid `π`
(`none` = the pixel is outside the raster's extent / NA).  `terra::mosaic`
of a collection combines, at each pixel, the values of the rasters that
cover it with the aggregation function `f` (e.g. mean, sum); a pixel covered
by no raster stays NA.
-/

/-- A raster over the pixel grid `π`: per-pixel optional cell value. -/
abbrev Raster (π : Type) : Type := π → Option ℚ

/-- The cell values present at pixel `p` among the rasters `rs`, in
collection order. -/
def presentVals {π : Type} (rs : List (Raster π)) (p : π) : List ℚ :=
  rs.filterMap (fun r => r p)

/-- `terra::mosaic` over a `SpatRasterCollection`: at each pixel, aggregate
the present values with `f`; NA where no raster covers the pixel. -/
def mosaicList {π : Type} (f : List ℚ → ℚ) (rs : List (Raster π)) : Raster π :=
  fun p =>
    let vs := presentVals rs p
    if vs = [] then none else some (f vs)

/-- `terra::mosaic(a, b, fun = f)` on two rasters, as used when merging a
batch mosaic into the running final mosaic. -/
def mosaic2 {π : Type} (f : List ℚ → ℚ) (a b : Raster π) : Raster π :=
  mosaicList f [a, b]

/-- Fuel-based worker for `chunkList`; `fuel` is an upper bound on the list
length, so the inadequate-fuel branch is never reached by `chunkList`. -/
def chunkGo {α : Type} (bs : ℕ) : ℕ → List α → List (List α)
  | _, [] => []
  | 0, a :: l => [a :: l]
  | fuel + 1, a :: l => (a :: l.take (bs - 1)) :: chunkGo bs fuel (l.drop (bs - 1))

/-- The batching of the R loop `for (i in seq(1, num_files, by = batch_size))`
with `batch_files <- raster_files[i:min(i + batch_size - 1, num_files)]`:
consecutive chunks of at most `bs` files, in input order. -/
def chunkList {α : Type} (bs : ℕ) (l : List α) : List (List α) :=
  chunkGo bs l.length l

/-- The mosaic computed by the batch loop of `mosaic_rasters_in_batches`:
each batch is mosaicked with `mosaicList`, and each batch mosaic is merged
into the running final mosaic with the two-raster `terra::mosaic` before the
next batch is processed. -/
def batchedMosaic {π : Type} (f : List ℚ → ℚ) (batch_size : ℕ)
    (files : List (Raster π)) : Raster π :=
  match (chunkList batch_size files).map (mosaicList f) with
  | [] => fun _ => none
  | m :: ms => ms.foldl (mosaic2 f) m

/-- `mosaic_rasters_in_list(raster_files, export_filename, fun)`.  Returns
the `stop` error or the mosaic, paired with the list of files written by
`terra::writeRaster`. -/
def mosaic_rasters_in_list {π : Type} (raster_files : List (Raster π))
    (export_filename : String) (f : List ℚ → ℚ) :
    Except String (Raster π) × List String :=
  if raster_files.length = 0 then
    (Except.error "No raster files provided for mosaicking.", [])
  else
    (Except.ok (mosaicList f raster_files), [export_filename])

/-- `mosaic_rasters_in_batches(raster_files, export_filename, fun,
batch_size)`.  Returns the `stop` error or the batch-folded mosaic, paired
with the list of files written by `terra::writeRaster`. -/
def mosaic_rasters_in_batches {π : Type} (raster_files : List (Raster π))
    (export_filename : String) (f : List ℚ → ℚ) (batch_size : ℕ) :
    Except String (Raster π) × List String :=
  if raster_files.length = 0 then
    (Except.error "No raster files provided for mosaicking.", [])
  else
    (Except.ok (batchedMosaic f batch_size raster_files), [export_filename])

/-- `mosaic_rasters_in_directory(path_name, export_filename, fun)`.  The
directory listing is modelled by the file-name list `dirFiles`; the pattern
filter `\.tif$` keeps names ending in `.tif`; `load` is the opaque raster
reader behind `terra::sprc`. -/
def mosaic_rasters_in_directory {π : Type} (load : String → Raster π)
    (dirFiles : List String) (export_filename : String) (f : List ℚ → ℚ) :
    Except String (Raster π) × List String :=
  let fl := dirFiles.filter (fun s => s.endsWith ".tif")
  if fl.length = 0 then
    (Except.error "No .tif files found in the specified directory.", [])
  else
    (Except.ok (mosaicList f (fl.map load)), [export_filename])

/-- The `"mean"` aggregation function of `terra::mosaic`. -/
def meanQ (l : List ℚ) : ℚ := l.sum / (l.length : ℚ)

/-- The `"sum"` aggregation function of `terra::mosaic`. -/
def sumQ (l : List ℚ) : ℚ := l.sum

/-- Concrete raster (pixel value 1 everywhere) for counterexamples. -/
def cexR1 : Raster Unit := fun _ => some 1

/-- Concrete raster (pixel value 2 everywhere) for counterexamples. -/
def cexR2 : Raster Unit := fun _ => some 2

/-- Concrete raster (pixel value 6 everywhere) for counterexamples. -/
def cexR3 : Raster Unit := fun _ => some 6

/-- Three overlapping one-pixel rasters. -/
def cexFiles : List (Raster Unit) := [cexR1, cexR2, cexR3]

/-! ## Per-pixel image model for sentinel_indices_and_masks.js

An `ee.Image`, observed at one pixel, is the ordered list of its bands,
each a band name paired with the pixel's value.  `image.addBands([X])`
appends the new band after the existing ones; `image.select(b)` reads band
`b`; `image.normalizedDifference([b1, b2])` computes `(b1 - b2)/(b1 + b2)`.
Band math is over `ℚ`.
-/

/-- An `ee.Image` at one pixel: ordered bands, name paired with value. -/
abbrev Image : Type := List (String × ℚ)

/-- `image.bandNames()`. -/
def bandNames (img : Image) : List String := img.map Prod.fst

/-- `image.select(b)`: the value of the first band named `b` (the scripts
only select bands that are present; absent bands default to 0 here). -/
def select (img : Image) (b : String) : ℚ := (img.lookup b).getD 0

/-- `image.addBands(bs)`: append the new bands after the existing ones. -/
def addBands (img : Image) (new : List (String × ℚ)) : Image := img ++ new

/-- `image.normalizedDifference([b1, b2])`. -/
def normalizedDifference (img : Image) (b1 b2 : String) : ℚ :=
  (select img b1 - select img b2) / (select img b1 + select img b2)

/-- `addCRE`: expression `(RedEdge3 / RedEdge1) - 1` with RedEdge1 = B5,
RedEdge3 = B7, renamed `CRE`, appended with `addBands`. -/
def addCRE (image : Image) : Image :=
  addBands image [("CRE", select image "B7" / select image "B5" - 1)]

/-- `addDSWI`: expression `(NIR + Green) / (Red + SWIR)` with NIR = B8,
Green = B3, Red = B4, SWIR = B11, renamed `DSWI`. -/
def addDSWI (image : Image) : Image :=
  addBands image
    [("DSWI", (select image "B8" + select image "B3") /
      (select image "B4" + select image "B11"))]

/-- `addDRS`: expression `sqrt(((RED) * (RED)) + ((SWIR) * (SWIR)))` with
RED = B4, SWIR = B11, renamed `DRS`.  The expression-language `sqrt` is an
opaque platform primitive, abstracted as the parameter `sqrtQ`.  The
`copyProperties` call touches image properties only, not bands. -/
def addDRS (sqrtQ : ℚ → ℚ) (image : Image) : Image :=
  addBands image
    [("DRS", sqrtQ (select image "B4" * select image "B4" +
      select image "B11" * select image "B11"))]

/-- `addEVI`: expression `2.5 * ((NIR - RED) / (NIR + 6 * RED - 7.5 * BLUE
+ 1))` with NIR = B8, RED = B4, BLUE = B2, renamed `EVI`. -/
def addEVI (image : Image) : Image :=
  addBands image
    [("EVI", 2.5 * ((select image "B8" - select image "B4") /
      (select image "B8" + 6 * select image "B4" -
        7.5 * select image "B2" + 1)))]

/-- `addGNDVI`: `normalizedDifference(['B8', 'B3'])` renamed `GNDVI`. -/
def addGNDVI (image : Image) : Image :=
  addBands image [("GNDVI", normalizedDifference image "B8" "B3")]

/-- `addLAI`: expression `3.618 * (EVI) - 0.118` where `EVI` is the inline
expression `2.5 * ((NIR - RED) / (NIR + 6 * RED - 7.5 * BLUE + 1))` with
NIR = B8, RED = B4, BLUE = B2, renamed `LAI`. -/
def addLAI (image : Image) : Image :=
  addBands image
    [("LAI", 3.618 * (2.5 * ((select image "B8" - select image "B4") /
      (select image "B8" + 6 * select image "B4" -
        7.5 * select image "B2" + 1))) - 0.118)]

/-- `addNBR`: expression `(NIR - SWIR2) / (NIR + SWIR2)` with NIR = B8,
SWIR2 = B12, renamed `NBR`. -/
def addNBR (image : Image) : Image :=
  addBands image
    [("NBR", (select image "B8" - select image "B12") /
      (select image "B8" + select image "B12"))]

/-- `addNDRE1`: expression `(RedEdge2 - RedEdge1) / (RedEdge2 + RedEdge1)`
with RedEdge1 = B5, RedEdge2 = B6, renamed `NDRE1`. -/
def addNDRE1 (image : Image) : Image :=
  addBands image
    [("NDRE1", (select image "B6" - select image "B5") /
      (select image "B6" + select image "B5"))]

/-- `addNDRE2`: expression `(RedEdge3 - RedEdge1) / (RedEdge3 + RedEdge1)`
with RedEdge1 = B5, RedEdge3 = B7, renamed `NDRE2`. -/
def addNDRE2 (image : Image) : Image :=
  addBands image
    [("NDRE2", (select image "B7" - select image "B5") /
      (select image "B7" + select image "B5"))]

/-- A server-side Earth Engine computed object carrying a deferred boolean
(the result of `ee.List.contains`): its value exists only after server
evaluation; the client holds an object reference. -/
structure EEComputedBool where
  serverValue : Bool

/-- The server-side call `image.bandNames().contains(b)`: it returns a
ComputedObject, not a client boolean. -/
def eeContains (names : List String) (b : String) : EEComputedBool :=
  ⟨names.contains b⟩

/-- Client-side JavaScript truthiness of a ComputedObject: every JS object
is truthy, whatever boolean it would evaluate to on the server. -/
def jsTruthy (o : EEComputedBool) : Bool := true

/-- `image.select(b)` allowing for an absent band: Earth Engine raises an
evaluation error when `b` names no band of the image (the message here
stands for that service error). -/
def selectE (img : Image) (b : String) : Except String ℚ :=
  match img.lookup b with
  | some v => Except.ok v
  | none => Except.error ("Image.select: no band named " ++ b ++ ".")

/-- `addNDRE3`: `hasBands` is a client-side `Array.every` over the
server-side ComputedObjects returned by `image.bandNames().contains(b)`;
every callback result is a truthy object, so `hasBands` is `true` for
every image and `ee.Algorithms.If` always takes the `addBands` branch.
That branch selects `B8A` and `B7` for the expression
`(RedEdge4 - RedEdge3) / (RedEdge4 + RedEdge3)` renamed `NDRE3`, which
fails at evaluation when either band is missing; the `else image` branch
(the commented missing-band pass-through) is unreachable. -/
def addNDRE3 (image : Image) : Except String Image :=
  let bands := ["B8A", "B7"]
  let hasBands := bands.all (fun b => jsTruthy (eeContains (bandNames image) b))
  if hasBands then do
    let redEdge4 ← selectE image "B8A"
    let redEdge3 ← selectE image "B7"
    Except.ok (addBands image
      [("NDRE3", (redEdge4 - redEdge3) / (redEdge4 + redEdge3))])
  else
    Except.ok image

/-- `addNDVI`: `normalizedDifference(['B8', 'B4'])` renamed `NDVI`. -/
def addNDVI (image : Image) : Image :=
  addBands image [("NDVI", normalizedDifference image "B8" "B4")]

/-- `addNDWI`: expression `(Green - NIR) / (Green + NIR)` with NIR = B8,
Green = B3, renamed `NDWI`. -/
def addNDWI (image : Image) : Image :=
  addBands image
    [("NDWI", (select image "B3" - select image "B8") /
      (select image "B3" + select image "B8"))]

/-- `addRDI`: same shape as `addNDRE3` — the client-side `Array.every`
over server-side `contains` ComputedObjects makes `hasBands` always
`true`, so the branch selecting `B12` and `B8A` for `SWIR2 / RedEdge4`
renamed `RDI` is always taken and fails at evaluation when a band is
missing; the `else image` branch is unreachable. -/
def addRDI (image : Image) : Except String Image :=
  let bands := ["B12", "B8A"]
  let hasBands := bands.all (fun b => jsTruthy (eeContains (bandNames image) b))
  if hasBands then do
    let swir2 ← selectE image "B12"
    let redEdge4 ← selectE image "B8A"
    Except.ok (addBands image [("RDI", swir2 / redEdge4)])
  else
    Except.ok image

/-! ## maskS2clouds

A Sentinel-2 pixel carries the integer `QA60` QA value alongside the band
values.  `updateMask(mask)` drops the pixel (all bands) when the mask is 0;
`divide(10000)` divides every band value by 10000.
-/

/-- A Sentinel-2 image at one pixel: the integer `QA60` value and the band
values the script divides by 10000. -/
structure S2Pixel where
  qa : ℕ
  bands : List (String × ℚ)

/-- `maskS2clouds`: mask = `qa.bitwiseAnd(1 << 10).eq(0)
.and(qa.bitwiseAnd(1 << 11).eq(0))`; returns
`image.updateMask(mask).divide(10000)` — `none` when the pixel is masked
out, otherwise all band values divided by 10000. -/
def maskS2clouds (image : S2Pixel) : Option (List (String × ℚ)) :=
  let qa := image.qa
  let cloudBitMask : ℕ := 1 <<< 10
  let cirrusBitMask : ℕ := 1 <<< 11
  let mask := (qa &&& cloudBitMask == 0) && (qa &&& cirrusBitMask == 0)
  if mask then some (image.bands.map (fun nv => (nv.1, nv.2 / 10000)))
  else none

/-! ## Export loops (exportImageCollection, exportBandsByYear)

Both functions turn the collection into a list and iterate with a `for`
loop, each iteration wrapped in `try { ... } catch (err) { print(...);
continue; }`.  `fileNameFn` is a user callback; its result passes the check
`if (!fileName || typeof fileName !== 'string') throw new Error('Invalid
file name generated.')`.  We model the callback's result as
`Option String`: `none` stands for any falsy or non-string value (the throw
path), `some name` for a valid name.  `img.clip(aoi)` (and the per-band
`img.select(band).clip(aoi)`) is the opaque `clip` (`selClip`) parameter.
A run returns the list of tasks submitted to `Export.image.toDrive`, in
submission order, and the list of caught-and-printed error messages. -/

/-- `exportImageCollection(collection, aoi, folder, scale, crs,
fileNameFn)`: per image, generate and validate the file name, clip to the
AOI and submit one export; a throw is caught, printed, and the loop
continues with the next image. -/
def exportImageCollection {α : Type} (clip : α → α)
    (fileNameFn : α → Option String) :
    List α → List (α × String) × List String
  | [] => ([], [])
  | img :: rest =>
    let r := exportImageCollection clip fileNameFn rest
    match fileNameFn img with
    | some fileName => ((clip img, fileName) :: r.1, r.2)
    | none => (r.1, "Invalid file name generated." :: r.2)

/-- The per-image body of `exportBandsByYear`: iterate over the image's
bands, submitting one clipped single-band export per band; the first band
whose generated file name fails validation throws, abandoning the remaining
bands of this image.  Returns the submitted tasks and whether the body
threw. -/
def processBands {α β : Type} (selClip : α → String → β)
    (fileNameFn : α → String → Option String) (img : α) :
    List String → List (β × String) × Bool
  | [] => ([], false)
  | band :: more =>
    match fileNameFn img band with
    | none => ([], true)
    | some fileName =>
      let r := processBands selClip fileNameFn img more
      ((selClip img band, fileName) :: r.1, r.2)

/-- `exportBandsByYear(collection, aoi, folder, scale, crs, fileNameFn)`:
per image, run the per-band export body inside try/catch; a throw is
caught, printed, and the loop continues with the next image.  `bandsOf`
models `img.bandNames().getInfo()`. -/
def exportBandsByYear {α β : Type} (bandsOf : α → List String)
    (selClip : α → String → β) (fileNameFn : α → String → Option String) :
    List α → List (β × String) × List String
  | [] => ([], [])
  | img :: rest =>
    let pr := processBands selClip fileNameFn img (bandsOf img)
    let r := exportBandsByYear bandsOf selClip fileNameFn rest
    (pr.1 ++ r.1,
      (if pr.2 then ["Invalid file name generated."] else []) ++ r.2)

/-! ## Terrain metrics script

An image here is a list of bands, each a name paired with a per-pixel value
function.  The DEM (`NRCan/CDEM`, mosaicked and clipped) contributes its
single band `elevation`; `ee.Terrain.slope`, `ee.Terrain.aspect`, `cos`,
`sin` and `Math.PI` are opaque platform primitives, abstracted as
parameters (`slopeFn`, `aspectFn`, `cosQ`, `sinQ`, `piQ`); aspect is in
degrees. -/

/-- An image with per-pixel band value functions over the pixel grid `π`. -/
abbrev ImageF (π : Type) : Type := List (String × (π → ℚ))

/-- Band names of an `ImageF`. -/
def bandNamesF {π : Type} (img : ImageF π) : List String := img.map Prod.fst

/-- `addBands` on `ImageF`: append the new bands. -/
def addBandsF {π : Type} (img : ImageF π) (new : ImageF π) : ImageF π :=
  img ++ new

/-- The script's `northness` image: `aspect.multiply(Math.PI).divide(180)
.cos().rename('northness')`. -/
def northnessOf {π : Type} (cosQ : ℚ → ℚ) (piQ : ℚ) (aspect : π → ℚ) :
    π → ℚ :=
  fun p => cosQ (aspect p * piQ / 180)

/-- The script's `eastness` image: `aspect.multiply(Math.PI).divide(180)
.sin().rename('eastness')` — computed but never added to `terrain`. -/
def eastnessOf {π : Type} (sinQ : ℚ → ℚ) (piQ : ℚ) (aspect : π → ℚ) :
    π → ℚ :=
  fun p => sinQ (aspect p * piQ / 180)

/-- The `terrain` image of the terrain-metrics script:
`dem.addBands(slope.rename('slope')).addBands(northness)
.addBands(aspect.rename('aspect'))`, where `dem` has the single band
`elevation` and slope/aspect come from `ee.Terrain`. -/
def terrainImage {π : Type} (elev : π → ℚ)
    (slopeFn aspectFn : (π → ℚ) → π → ℚ) (cosQ : ℚ → ℚ) (piQ : ℚ) :
    ImageF π :=
  let dem : ImageF π := [("elevation", elev)]
  let slope := fun p => slopeFn elev p
  let aspect := fun p => aspectFn elev p
  let northness := northnessOf cosQ piQ aspect
  addBandsF (addBandsF (addBandsF dem [("slope", slope)])
    [("northness", northness)]) [("aspect", aspect)]

/-- The image handed to `Export.image.toDrive` by the terrain script: the
`terrain` image itself. -/
def terrainExportImage {π : Type} (elev : π → ℚ)
    (slopeFn aspectFn : (π → ℚ) → π → ℚ) (cosQ : ℚ → ℚ) (piQ : ℚ) :
    ImageF π :=
  terrainImage elev slopeFn aspectFn cosQ piQ

/-! ## Helper lemmas -/

/-- With adequate fuel, the chunks concatenate back to the input list. -/
theorem chunkGo_flatten {α : Type} (bs : ℕ) :
    ∀ (fuel : ℕ) (l : List α), l.length ≤ fuel →
      (chunkGo bs fuel l).flatten = l := by
  intro fuel
  induction fuel with
  | zero =>
    intro l hl
    cases l with
    | nil => rfl
    | cons a t => simp at hl
  | succ fuel ih =>
    intro l hl
    cases l with
    | nil => rfl
    | cons a t =>
      have ht : t.length ≤ fuel := by
        simp only [List.length_cons] at hl
        omega
      have hd : (t.drop (bs - 1)).length ≤ fuel := by
        rw [List.length_drop]
        omega
      simp only [chunkGo, List.flatten_cons, ih _ hd, List.cons_append,
        List.take_append_drop]

/-- The chunks concatenate back to the input list. -/
theorem chunkList_flatten {α : Type} (bs : ℕ) (l : List α) :
    (chunkList bs l).flatten = l :=
  chunkGo_flatten bs l.length l le_rfl

/-- With adequate fuel and a positive batch size, every chunk is nonempty
and has at most `bs` elements. -/
theorem chunkGo_chunk_size {α : Type} (bs : ℕ) (hbs : 1 ≤ bs) :
    ∀ (fuel : ℕ) (l : List α), l.length ≤ fuel →
      ∀ c ∈ chunkGo bs fuel l, c ≠ [] ∧ c.length ≤ bs := by
  intro fuel
  induction fuel with
  | zero =>
    intro l hl c hc
    cases l with
    | nil => simp [chunkGo] at hc
    | cons a t => simp at hl
  | succ fuel ih =>
    intro l hl c hc
    cases l with
    | nil => simp [chunkGo] at hc
    | cons a t =>
      have ht : t.length ≤ fuel := by
        simp only [List.length_cons] at hl
        omega
      have hd : (t.drop (bs - 1)).length ≤ fuel := by
        rw [List.length_drop]
        omega
      simp only [chunkGo, List.mem_cons] at hc
      rcases hc with rfl | hc
      · refine ⟨by simp, ?_⟩
        have := List.length_take_le (bs - 1) t
        simp only [List.length_cons]
        omega
      · exact ih _ hd c hc

/-- With adequate fuel, chunk `k` is exactly the slice of the input
starting at index `k * bs` of length at most `bs`. -/
theorem chunkGo_getD {α : Type} (bs : ℕ) (hbs : 1 ≤ bs) :
    ∀ (fuel : ℕ) (l : List α) (k : ℕ), l.length ≤ fuel →
      k < (chunkGo bs fuel l).length →
      (chunkGo bs fuel l).getD k [] = (l.drop (k * bs)).take bs := by
  intro fuel
  induction fuel with
  | zero =>
    intro l k hl hk
    cases l with
    | nil => simp [chunkGo] at hk
    | cons a t => simp at hl
  | succ fuel ih =>
    intro l k hl hk
    cases l with
    | nil => simp [chunkGo] at hk
    | cons a t =>
      have ht : t.length ≤ fuel := by
        simp only [List.length_cons] at hl
        omega
      have hd : (t.drop (bs - 1)).length ≤ fuel := by
        rw [List.length_drop]
        omega
      cases k with
      | zero =>
        simp only [chunkGo, List.getD_cons_zero, Nat.zero_mul, List.drop_zero]
        conv_rhs => rw [show bs = (bs - 1) + 1 by omega]
        rw [List.take_succ_cons]
      | succ k =>
        simp only [chunkGo, List.length_cons] at hk
        have hk2 : k < (chunkGo bs fuel (t.drop (bs - 1))).length := by omega
        simp only [chunkGo, List.getD_cons_succ, ih _ k hd hk2,
          List.drop_drop]
        have harith : (k + 1) * bs = ((bs - 1) + k * bs) + 1 := by
          rw [Nat.succ_mul]
          omega
        rw [harith, List.drop_succ_cons]

/-- The values present in a concatenated collection are the concatenated
present values. -/
theorem presentVals_append {π : Type} (xs ys : List (Raster π)) (p : π) :
    presentVals (xs ++ ys) p = presentVals xs p ++ presentVals ys p :=
  List.filterMap_append xs ys _

/-- Unfolding `mosaicList` at a pixel. -/
theorem mosaicList_apply {π : Type} (f : List ℚ → ℚ) (rs : List (Raster π))
    (p : π) :
    mosaicList f rs p =
      if presentVals rs p = [] then none else some (f (presentVals rs p)) :=
  rfl

/-- The two-raster mosaic at a pixel, by cases on coverage. -/
theorem mosaic2_apply {π : Type} (f : List ℚ → ℚ) (a b : Raster π) (p : π) :
    mosaic2 f a b p =
      match a p, b p with
      | none, none => none
      | some x, none => some (f [x])
      | none, some y => some (f [y])
      | some x, some y => some (f [x, y]) := by
  rcases ha : a p with _ | x <;> rcases hb : b p with _ | y <;>
    simp [mosaic2, mosaicList, presentVals, ha, hb]

/-- Merging two collection mosaics with the two-raster mosaic equals the
one-pass mosaic of the concatenated collection, for aggregation functions
that fix singletons and merge associatively. -/
theorem mosaic2_mosaicList {π : Type} (f : List ℚ → ℚ)
    (HF1 : ∀ x : ℚ, f [x] = x)
    (HF2 : ∀ xs ys : List ℚ, xs ≠ [] → ys ≠ [] → f [f xs, f ys] = f (xs ++ ys))
    (xs c : List (Raster π)) :
    mosaic2 f (mosaicList f xs) (mosaicList f c) = mosaicList f (xs ++ c) := by
  funext p
  rw [mosaic2_apply, mosaicList_apply f xs, mosaicList_apply f c,
    mosaicList_apply f (xs ++ c), presentVals_append]
  by_cases h1 : presentVals xs p = [] <;> by_cases h2 : presentVals c p = []
  · rw [if_pos h1, if_pos h2, h1, h2]
    simp
  · rw [if_pos h1, if_neg h2, h1]
    simp [h2, HF1]
  · rw [if_neg h1, if_pos h2, h2]
    simp [h1, HF1]
  · rw [if_neg h1, if_neg h2]
    have hne : ¬ (presentVals xs p ++ presentVals c p = []) := by simp [h1]
    rw [if_neg hne]
    simp [HF2 _ _ h1 h2]

/-- Folding batch mosaics into a running mosaic equals the one-pass mosaic
of everything folded so far. -/
theorem foldl_mosaic2 {π : Type} (f : List ℚ → ℚ)
    (HF1 : ∀ x : ℚ, f [x] = x)
    (HF2 : ∀ xs ys : List ℚ, xs ≠ [] → ys ≠ [] → f [f xs, f ys] = f (xs ++ ys)) :
    ∀ (cs : List (List (Raster π))) (xs : List (Raster π)),
      (cs.map (mosaicList f)).foldl (mosaic2 f) (mosaicList f xs) =
        mosaicList f (xs ++ cs.flatten) := by
  intro cs
  induction cs with
  | nil => intro xs; simp
  | cons c cs ih =>
    intro xs
    simp only [List.map_cons, List.foldl_cons, List.flatten_cons]
    rw [mosaic2_mosaicList f HF1 HF2, ih, List.append_assoc]

/-- For singleton-fixing, merge-associative aggregation functions, the
batch-folded mosaic equals the one-pass mosaic of all files. -/
theorem batchedMosaic_eq {π : Type} (f : List ℚ → ℚ)
    (HF1 : ∀ x : ℚ, f [x] = x)
    (HF2 : ∀ xs ys : List ℚ, xs ≠ [] → ys ≠ [] → f [f xs, f ys] = f (xs ++ ys))
    (bs : ℕ) (files : List (Raster π)) (hne : files ≠ []) :
    batchedMosaic f bs files = mosaicList f files := by
  obtain ⟨a, t, rfl⟩ := List.exists_cons_of_ne_nil hne
  have hch : chunkList bs (a :: t) =
      (a :: t.take (bs - 1)) :: chunkGo bs t.length (t.drop (bs - 1)) := by
    simp [chunkList, chunkGo]
  have hfl := chunkList_flatten bs (a :: t)
  rw [hch, List.flatten_cons] at hfl
  unfold batchedMosaic
  rw [hch]
  show (List.map (mosaicList f) (chunkGo bs t.length (t.drop (bs - 1)))).foldl
    (mosaic2 f) (mosaicList f (a :: t.take (bs - 1))) = mosaicList f (a :: t)
  rw [foldl_mosaic2 f HF1 HF2, hfl]

/-! ## Claim theorems -/

/-- C1 (counterexample): with the aggregation function `"mean"`, three
overlapping one-pixel rasters with values 1, 2, 6 and `batch_size = 2`,
`mosaic_rasters_in_batches` returns a different mosaic than
`mosaic_rasters_in_list` — the batched run produces mean(mean(1,2), 6) =
15/4 at the pixel, the one-pass run mean(1, 2, 6) = 3.  So the claimed
equivalence does not hold for every aggregation function. -/
theorem mosaic_in_batches_mean_cex :
    mosaic_rasters_in_batches cexFiles "mosaic.tif" meanQ 2 ≠
      mosaic_rasters_in_list cexFiles "mosaic.tif" meanQ := by
  intro h
  have hlen : ¬ (cexFiles.length = 0) := by simp [cexFiles]
  simp only [mosaic_rasters_in_batches, mosaic_rasters_in_list,
    if_neg hlen] at h
  have h1 : batchedMosaic meanQ 2 cexFiles = mosaicList meanQ cexFiles :=
    Except.ok.inj (congrArg Prod.fst h)
  have h2 := congrFun h1 ()
  have hb : batchedMosaic meanQ 2 cexFiles () = some (15 / 4) := by
    simp [batchedMosaic, chunkList, chunkGo, cexFiles, cexR1, cexR2, cexR3,
      mosaic2, mosaicList, presentVals, meanQ]
    norm_num
  have hl : mosaicList meanQ cexFiles () = some 3 := by
    simp [mosaicList, presentVals, cexFiles, cexR1, cexR2, cexR3, meanQ]
    norm_num
  rw [hb, hl] at h2
  have h3 : (15 / 4 : ℚ) = 3 := Option.some.inj h2
  norm_num at h3

/-- C1 (amended): for every non-empty list of raster files, every
`batch_size ≥ 1`, and every aggregation function `fun` that fixes
singletons (`fun([x]) = x`) and merges associatively
(`fun([fun(xs), fun(ys)]) = fun(xs ++ ys)` for nonempty `xs`, `ys` — e.g.
`"sum"`, `"min"`, `"max"`), `mosaic_rasters_in_batches` returns the same
mosaic raster (same extent and same per-pixel values, and the same write
to `export_filename`) as `mosaic_rasters_in_list` applied to the same
files in one pass.  Without the two conditions on `fun` the equivalence
fails (`"mean"` is a counterexample). -/
theorem mosaic_in_batches_refines_in_list {π : Type} (f : List ℚ → ℚ)
    (files : List (Raster π)) (export_filename : String) (bs : ℕ)
    (hbs : 1 ≤ bs) (hne : files ≠ [])
    (HF1 : ∀ x : ℚ, f [x] = x)
    (HF2 : ∀ xs ys : List ℚ, xs ≠ [] → ys ≠ [] → f [f xs, f ys] = f (xs ++ ys)) :
    mosaic_rasters_in_batches files export_filename f bs =
      mosaic_rasters_in_list files export_filename f := by
  have hlen : ¬ (files.length = 0) := by
    simpa [List.length_eq_zero] using hne
  simp only [mosaic_rasters_in_batches, mosaic_rasters_in_list, if_neg hlen,
    batchedMosaic_eq f HF1 HF2 bs files hne]

/-- Witness for C1 (amended): with `"sum"` and `batch_size = 2` on the
three concrete rasters, batching agrees with the one-pass mosaic. -/
theorem mosaic_in_batches_refines_in_list_witness :
    (1 ≤ 2 ∧ cexFiles ≠ []) ∧
    mosaic_rasters_in_batches cexFiles "mosaic.tif" sumQ 2 =
      mosaic_rasters_in_list cexFiles "mosaic.tif" sumQ :=
  ⟨⟨by norm_num, by simp [cexFiles]⟩,
    mosaic_in_batches_refines_in_list sumQ cexFiles "mosaic.tif" 2
      (by norm_num) (by simp [cexFiles]) (fun x => by simp [sumQ])
      (fun xs ys hx hy => by simp [sumQ])⟩

/-- C2: for every non-empty file list and `batch_size ≥ 1`, the batching of
`mosaic_rasters_in_batches` partitions the input into consecutive batches
in input order: the batches concatenate back to the input (every file in
exactly one batch), every batch is nonempty with at most `batch_size`
files, and the `k`-th batch is exactly the slice of the input starting at
index `k * batch_size` (R's `raster_files[i:min(i + batch_size - 1,
num_files)]` for `i = k * batch_size + 1`, 1-indexed). -/
theorem mosaic_in_batches_partition {π : Type} (bs : ℕ)
    (files : List (Raster π)) (hbs : 1 ≤ bs) (hne : files ≠ []) :
    (chunkList bs files).flatten = files ∧
    (∀ c ∈ chunkList bs files, c ≠ [] ∧ c.length ≤ bs) ∧
    (∀ k, k < (chunkList bs files).length →
      (chunkList bs files).getD k [] = (files.drop (k * bs)).take bs) :=
  ⟨chunkList_flatten bs files,
    fun c hc => chunkGo_chunk_size bs hbs files.length files le_rfl c hc,
    fun k hk => chunkGo_getD bs hbs files.length files k le_rfl hk⟩

/-- Witness for C2 at `batch_size = 2` on the three concrete rasters. -/
theorem mosaic_in_batches_partition_witness :
    (chunkList 2 cexFiles).flatten = cexFiles ∧
    (∀ c ∈ chunkList 2 cexFiles, c ≠ [] ∧ c.length ≤ 2) ∧
    (∀ k, k < (chunkList 2 cexFiles).length →
      (chunkList 2 cexFiles).getD k [] = (cexFiles.drop (k * 2)).take 2) :=
  mosaic_in_batches_partition 2 cexFiles (by norm_num) (by simp [cexFiles])

/-- C9: on empty input — an empty `raster_files` vector for
`mosaic_rasters_in_list` and `mosaic_rasters_in_batches`, or a directory
listing with no `.tif` files for `mosaic_rasters_in_directory` — each
function stops with its error (`'No raster files provided for
mosaicking.'` resp. `'No .tif files found in the specified directory.'`)
before any mosaicking, and on that error path nothing is written to
`export_filename` (the write list is empty). -/
theorem mosaic_empty_input_errors {π : Type} :
    (∀ (export_filename : String) (f : List ℚ → ℚ),
      mosaic_rasters_in_list ([] : List (Raster π)) export_filename f =
        (Except.error "No raster files provided for mosaicking.", [])) ∧
    (∀ (export_filename : String) (f : List ℚ → ℚ) (bs : ℕ),
      mosaic_rasters_in_batches ([] : List (Raster π)) export_filename f bs =
        (Except.error "No raster files provided for mosaicking.", [])) ∧
    (∀ (load : String → Raster π) (dirFiles : List String)
        (export_filename : String) (f : List ℚ → ℚ),
      (∀ s ∈ dirFiles, s.endsWith ".tif" = false) →
      mosaic_rasters_in_directory load dirFiles export_filename f =
        (Except.error "No .tif files found in the specified directory.", [])) := by
  refine ⟨fun fn f => rfl, fun fn f bs => rfl,
    fun load dirFiles fn f hno => ?_⟩
  have hfl : dirFiles.filter (fun s => s.endsWith ".tif") = [] :=
    List.filter_eq_nil_iff.mpr (by intro a ha; simp [hno a ha])
  simp [mosaic_rasters_in_directory, hfl]

/-- Witness for C9: the empty vector and a `.tif`-free directory listing
hit the error paths with no write. -/
theorem mosaic_empty_input_errors_witness :
    mosaic_rasters_in_list ([] : List (Raster Unit)) "mosaic.tif" meanQ =
      (Except.error "No raster files provided for mosaicking.", []) ∧
    mosaic_rasters_in_batches ([] : List (Raster Unit)) "mosaic.tif" meanQ 10 =
      (Except.error "No raster files provided for mosaicking.", []) ∧
    mosaic_rasters_in_directory (fun _ => cexR1) [] "mosaic.tif" meanQ =
      (Except.error "No .tif files found in the specified directory.", []) :=
  ⟨(mosaic_empty_input_errors).1 "mosaic.tif" meanQ,
    (mosaic_empty_input_errors).2.1 "mosaic.tif" meanQ 10,
    (mosaic_empty_input_errors).2.2 (fun _ => cexR1) [] "mosaic.tif" meanQ
      (by simp)⟩

/-- Characterization of `exportImageCollection`: one export per image with
a valid name, one caught error message per image with an invalid name, in
input order. -/
theorem exportImageCollection_spec {α : Type} (clip : α → α)
    (fileNameFn : α → Option String) :
    ∀ images : List α,
      exportImageCollection clip fileNameFn images =
        (images.filterMap (fun i => (fileNameFn i).map (fun n => (clip i, n))),
          (images.filter (fun i => (fileNameFn i).isNone)).map
            (fun _ => "Invalid file name generated.")) := by
  intro images
  induction images with
  | nil => rfl
  | cons img rest ih =>
    cases h : fileNameFn img with
    | none => simp [exportImageCollection, h, ih]
    | some name => simp [exportImageCollection, h, ih]

/-- When every band of the image yields a valid file name, the per-image
body of `exportBandsByYear` submits one clipped export per band and does
not throw. -/
theorem processBands_all_valid {α β : Type} (selClip : α → String → β)
    (fileNameFn : α → String → Option String) (img : α) :
    ∀ bl : List String, (∀ b ∈ bl, (fileNameFn img b).isSome) →
      processBands selClip fileNameFn img bl =
        (bl.map (fun b => (selClip img b, (fileNameFn img b).getD "")),
          false) := by
  intro bl
  induction bl with
  | nil => intro _; rfl
  | cons b more ih =>
    intro hv
    obtain ⟨n, hn⟩ := Option.isSome_iff_exists.mp (hv b (by simp))
    simp [processBands, hn, ih (fun x hx => hv x (by simp [hx]))]

/-- Characterization of `exportBandsByYear`: the submitted exports are the
per-image submissions concatenated in input order, and one caught error
message per image whose body threw. -/
theorem exportBandsByYear_spec {α β : Type} (bandsOf : α → List String)
    (selClip : α → String → β) (fileNameFn : α → String → Option String) :
    ∀ images : List α,
      exportBandsByYear bandsOf selClip fileNameFn images =
        (images.flatMap
            (fun i => (processBands selClip fileNameFn i (bandsOf i)).1),
          (images.filter
              (fun i => (processBands selClip fileNameFn i (bandsOf i)).2)).map
            (fun _ => "Invalid file name generated.")) := by
  intro images
  induction images with
  | nil => rfl
  | cons img rest ih =>
    cases hpr : (processBands selClip fileNameFn img (bandsOf img)).2 with
    | false => simp [exportBandsByYear, ih, hpr]
    | true => simp [exportBandsByYear, ih, hpr]

/-- C3: both export loops iterate sequentially with a per-image try/catch.
For `exportImageCollection`: the submitted exports are exactly one clipped
export per image with a valid file name, in order, and one reported
`'Invalid file name generated.'` error per image whose file name is falsy
or non-string, after which iteration continues with the next image.  For
`exportBandsByYear`: the submissions are the per-image band submissions
concatenated in input order (so a throwing image does not stop later
images), one error is reported per throwing image, and an image all of
whose bands yield valid names has each band clipped and submitted exactly
once. -/
theorem export_loops_sequential {α β : Type} (clip : α → α)
    (fileNameFn1 : α → Option String) (bandsOf : α → List String)
    (selClip : α → String → β) (fileNameFn2 : α → String → Option String)
    (images : List α) :
    (exportImageCollection clip fileNameFn1 images).1 =
      images.filterMap (fun i => (fileNameFn1 i).map (fun n => (clip i, n))) ∧
    (exportImageCollection clip fileNameFn1 images).2 =
      (images.filter (fun i => (fileNameFn1 i).isNone)).map
        (fun _ => "Invalid file name generated.") ∧
    (exportBandsByYear bandsOf selClip fileNameFn2 images).1 =
      images.flatMap
        (fun i => (processBands selClip fileNameFn2 i (bandsOf i)).1) ∧
    (exportBandsByYear bandsOf selClip fileNameFn2 images).2 =
      (images.filter
          (fun i => (processBands selClip fileNameFn2 i (bandsOf i)).2)).map
        (fun _ => "Invalid file name generated.") ∧
    (∀ i, (∀ b ∈ bandsOf i, (fileNameFn2 i b).isSome) →
      processBands selClip fileNameFn2 i (bandsOf i) =
        ((bandsOf i).map (fun b => (selClip i b, (fileNameFn2 i b).getD "")),
          false)) := by
  refine ⟨?_, ?_, ?_, ?_, fun i hv => processBands_all_valid _ _ i _ hv⟩
  · rw [exportImageCollection_spec clip fileNameFn1 images]
  · rw [exportImageCollection_spec clip fileNameFn1 images]
  · rw [exportBandsByYear_spec bandsOf selClip fileNameFn2 images]
  · rw [exportBandsByYear_spec bandsOf selClip fileNameFn2 images]

/-- Witness for C3: a three-image run where image 1 yields an invalid
file name (one error, the other two images exported), and a per-band run
where every band is valid (each band submitted once, no throw). -/
theorem export_loops_sequential_witness :
    (exportImageCollection (fun (i : ℕ) => i + 100)
        (fun i => if i = 1 then none else some "f") [0, 1, 2]).1 =
      [(100, "f"), (102, "f")] ∧
    (exportImageCollection (fun (i : ℕ) => i + 100)
        (fun i => if i = 1 then none else some "f") [0, 1, 2]).2 =
      ["Invalid file name generated."] ∧
    processBands (fun (i : ℕ) (b : String) => (i, b)) (fun _ _ => some "g")
      5 ["B1", "B2"] = ([((5, "B1"), "g"), ((5, "B2"), "g")], false) := by
  have H := export_loops_sequential (α := ℕ) (β := ℕ × String)
    (fun i => i + 100) (fun i => if i = 1 then none else some "f")
    (fun _ => ["B1", "B2"]) (fun i b => (i, b)) (fun _ _ => some "g")
    [0, 1, 2]
  refine ⟨?_, ?_, ?_⟩
  · rw [H.1]
    decide
  · rw [H.2.1]
    decide
  · rw [H.2.2.2.2 5 (by decide)]
    decide

/-- A bitmask test `n &&& (1 << k) == 0` holds exactly when bit `k` of `n`
is zero. -/
theorem and_one_shiftLeft_eq_zero (n k : ℕ) :
    (n &&& (1 <<< k) = 0) ↔ n.testBit k = false := by
  rw [Nat.shiftLeft_eq, one_mul, Nat.and_two_pow]
  cases h : n.testBit k <;> simp [h]

/-- C4: `maskS2clouds` keeps a pixel if and only if both bit 10 (cloud)
and bit 11 (cirrus) of `QA60` are zero at that pixel, and every band value
of the returned image equals the corresponding input value divided by
10000. -/
theorem maskS2clouds_spec (image : S2Pixel) :
    ((maskS2clouds image).isSome ↔
      (image.qa.testBit 10 = false ∧ image.qa.testBit 11 = false)) ∧
    (∀ out, maskS2clouds image = some out →
      out = image.bands.map (fun nv => (nv.1, nv.2 / 10000))) := by
  have hiff : ((image.qa &&& 1 <<< 10 == 0) &&
      (image.qa &&& 1 <<< 11 == 0)) = true ↔
      (image.qa.testBit 10 = false ∧ image.qa.testBit 11 = false) := by
    rw [Bool.and_eq_true, beq_iff_eq, beq_iff_eq,
      and_one_shiftLeft_eq_zero, and_one_shiftLeft_eq_zero]
  have hite : maskS2clouds image =
      if (image.qa.testBit 10 = false ∧ image.qa.testBit 11 = false) then
        some (image.bands.map (fun nv => (nv.1, nv.2 / 10000)))
      else none := by
    simp only [maskS2clouds]
    by_cases h : (image.qa.testBit 10 = false ∧ image.qa.testBit 11 = false)
    · rw [if_pos (hiff.mpr h), if_pos h]
    · rw [if_neg (fun hbt => h (hiff.mp hbt)), if_neg h]
  constructor
  · rw [hite]
    by_cases h : (image.qa.testBit 10 = false ∧ image.qa.testBit 11 = false)
    · simp [h]
    · simp only [if_neg h, Option.isSome_none, Bool.false_eq_true, false_iff]
      exact h
  · intro out hout
    rw [hite] at hout
    by_cases h : (image.qa.testBit 10 = false ∧ image.qa.testBit 11 = false)
    · rw [if_pos h] at hout
      exact (Option.some.inj hout).symm
    · rw [if_neg h] at hout
      exact absurd hout (by simp)

/-- Witness for C4: a clear pixel (`QA60 = 0`) is kept with its band value
divided by 10000; a cloudy pixel (`QA60` with bit 10 set) is dropped. -/
theorem maskS2clouds_spec_witness :
    ((maskS2clouds ⟨0, [("B2", 5)]⟩).isSome ↔
      ((0 : ℕ).testBit 10 = false ∧ (0 : ℕ).testBit 11 = false)) ∧
    maskS2clouds ⟨0, [("B2", 5)]⟩ = some [("B2", 5 / 10000)] ∧
    ((maskS2clouds ⟨1024, [("B2", 5)]⟩).isSome ↔
      ((1024 : ℕ).testBit 10 = false ∧ (1024 : ℕ).testBit 11 = false)) := by
  refine ⟨(maskS2clouds_spec ⟨0, [("B2", 5)]⟩).1, ?_,
    (maskS2clouds_spec ⟨1024, [("B2", 5)]⟩).1⟩
  have h : maskS2clouds ⟨0, [("B2", 5)]⟩ =
      some ([("B2", (5 : ℚ))].map (fun nv => (nv.1, nv.2 / 10000))) := by
    have hs : (maskS2clouds ⟨0, [("B2", 5)]⟩).isSome := by
      rw [(maskS2clouds_spec ⟨0, [("B2", 5)]⟩).1]
      constructor <;> decide
    obtain ⟨out, hout⟩ := Option.isSome_iff_exists.mp hs
    rw [hout, (maskS2clouds_spec ⟨0, [("B2", 5)]⟩).2 out hout]
  simpa using h

/-- C5: `addNDVI` returns the input image with exactly one new band,
named `NDVI`, appended, whose value is `(B8 - B4) / (B8 + B4)`. -/
theorem addNDVI_spec (img : Image) (b8 b4 : ℚ)
    (h8 : img.lookup "B8" = some b8) (h4 : img.lookup "B4" = some b4) :
    addNDVI img = img ++ [("NDVI", (b8 - b4) / (b8 + b4))] := by
  simp [addNDVI, addBands, normalizedDifference, select, h8, h4]

/-- Witness for C5 on a concrete image with `B8 = 3`, `B4 = 1`. -/
theorem addNDVI_spec_witness :
    (([("B8", 3), ("B4", 1)] : Image).lookup "B8" = some 3 ∧
      ([("B8", 3), ("B4", 1)] : Image).lookup "B4" = some 1) ∧
    addNDVI [("B8", 3), ("B4", 1)] =
      [("B8", 3), ("B4", 1)] ++ [("NDVI", (3 - 1) / (3 + 1))] :=
  ⟨⟨by decide, by decide⟩, addNDVI_spec _ 3 1 (by decide) (by decide)⟩

/-- C6: on every image, the `LAI` band produced by `addLAI` equals 3.618
times the `EVI` band produced by `addEVI` on the same image, minus
0.118. -/
theorem addLAI_eq_addEVI (img : Image) :
    ∃ e, addEVI img = img ++ [("EVI", e)] ∧
      addLAI img = img ++ [("LAI", 3.618 * e - 0.118)] :=
  ⟨2.5 * ((select img "B8" - select img "B4") /
      (select img "B8" + 6 * select img "B4" - 7.5 * select img "B2" + 1)),
    rfl, rfl⟩

/-- C7: every single-index adder returns the input image with all its
bands unchanged and in place; the only band-level change is the one named
index band appended after the existing bands.  (`addDRS` additionally
copies a property, which is not a band-level change.) -/
theorem index_adders_append_one_band (sqrtQ : ℚ → ℚ) (img : Image) :
    (∃ v, addCRE img = img ++ [("CRE", v)]) ∧
    (∃ v, addDSWI img = img ++ [("DSWI", v)]) ∧
    (∃ v, addDRS sqrtQ img = img ++ [("DRS", v)]) ∧
    (∃ v, addEVI img = img ++ [("EVI", v)]) ∧
    (∃ v, addGNDVI img = img ++ [("GNDVI", v)]) ∧
    (∃ v, addLAI img = img ++ [("LAI", v)]) ∧
    (∃ v, addNBR img = img ++ [("NBR", v)]) ∧
    (∃ v, addNDRE1 img = img ++ [("NDRE1", v)]) ∧
    (∃ v, addNDRE2 img = img ++ [("NDRE2", v)]) ∧
    (∃ v, addNDVI img = img ++ [("NDVI", v)]) ∧
    (∃ v, addNDWI img = img ++ [("NDWI", v)]) :=
  ⟨⟨_, rfl⟩, ⟨_, rfl⟩, ⟨_, rfl⟩, ⟨_, rfl⟩, ⟨_, rfl⟩, ⟨_, rfl⟩, ⟨_, rfl⟩,
    ⟨_, rfl⟩, ⟨_, rfl⟩, ⟨_, rfl⟩, ⟨_, rfl⟩⟩

/-- C8: the exported terrain image has exactly the bands `elevation`,
`slope`, `northness`, `aspect` in that order; its `northness` band at
every pixel is the cosine of the `aspect` band value (degrees) converted
to radians; and the computed `eastness` band is not part of the exported
image. -/
theorem terrain_export_spec {π : Type} (elev : π → ℚ)
    (slopeFn aspectFn : (π → ℚ) → π → ℚ) (cosQ : ℚ → ℚ) (piQ : ℚ) :
    bandNamesF (terrainExportImage elev slopeFn aspectFn cosQ piQ) =
      ["elevation", "slope", "northness", "aspect"] ∧
    (∃ nf af,
      (terrainExportImage elev slopeFn aspectFn cosQ piQ).lookup
        "northness" = some nf ∧
      (terrainExportImage elev slopeFn aspectFn cosQ piQ).lookup
        "aspect" = some af ∧
      ∀ p, nf p = cosQ (af p * piQ / 180)) ∧
    "eastness" ∉ bandNamesF (terrainExportImage elev slopeFn aspectFn cosQ piQ) := by
  refine ⟨rfl,
    ⟨northnessOf cosQ piQ (fun p => aspectFn elev p),
      fun p => aspectFn elev p, rfl, rfl, fun p => rfl⟩, ?_⟩
  intro h
  simp [bandNamesF, terrainExportImage, terrainImage, addBandsF] at h

/-- C10 (code bug): the band guards of `addNDRE3` and `addRDI` are
vacuous — the client-side `Array.every` sees only truthy server-side
ComputedObjects, so `hasBands` is `true` for every image and the
missing-band pass-through branch the source comments describe is dead
code.  On an image with only `B4`, both functions fail at `image.select`
instead of returning the input unchanged; with all required bands present
the index band is appended as documented. -/
theorem band_guard_dead_code :
    (∀ img : Image,
      (["B8A", "B7"].all
        (fun b => jsTruthy (eeContains (bandNames img) b))) = true) ∧
    (∀ img : Image,
      (["B12", "B8A"].all
        (fun b => jsTruthy (eeContains (bandNames img) b))) = true) ∧
    addNDRE3 [("B4", 1)] =
      Except.error "Image.select: no band named B8A." ∧
    addRDI [("B4", 1)] =
      Except.error "Image.select: no band named B12." ∧
    (∃ v, addNDRE3 [("B8A", 2), ("B7", 1), ("B12", 4)] =
      Except.ok ([("B8A", 2), ("B7", 1), ("B12", 4)] ++ [("NDRE3", v)])) ∧
    (∃ v, addRDI [("B8A", 2), ("B7", 1), ("B12", 4)] =
      Except.ok ([("B8A", 2), ("B7", 1), ("B12", 4)] ++ [("RDI", v)])) := by
  refine ⟨fun img => rfl, fun img => rfl, ?_, ?_,
    ⟨(2 - 1) / (2 + 1), ?_⟩, ⟨4 / 2, ?_⟩⟩ <;> rfl

end Geo
